import Mathlib

/-!
Verification of the clinical AI-usefulness heuristic scorer
(`ai_usefulness_app.py`).  The two pure functions of the app,
`analyze_dimensions` and `compute_ai_usefulness`, are embedded below.
Text is represented as a `String`; the Python substring test `term in t`
is embedded as `strContains`, and `str.lower()` as a character-wise
ASCII lowering, matching the inputs the app handles.
-/

namespace Osler

/-- Python substring test: `strContains needle hay = true` iff `needle`
occurs contiguously inside `hay` (the Python expression `needle in hay`). -/
def strContains (needle : List Char) : List Char → Bool
  | [] => needle.isEmpty
  | c :: rest => needle.isPrefixOf (c :: rest) || strContains needle rest

/-- Lowercasing of the input, `text.lower()` in the source. -/
def pyLower (s : String) : List Char := s.data.map Char.toLower

/-- The Python membership test `term in t` for a term from one of the
phrase lists against the lowered text. -/
def pyIn (term : String) (t : List Char) : Bool := strContains term.data t

/-- Result record of `analyze_dimensions`: the five dimension scores, the
list of rationale strings, and the hard-stop flag. -/
structure Dimensions where
  time_urgency : Int
  risk_level : Int
  protocol_independence : Int
  evidence_orientation : Int
  educational_frame : Int
  reasons : List String
  hard_stop : Bool
  deriving Repr, DecidableEq

/-- `time_critical_terms` from the source. -/
def time_critical_terms : List String :=
  ["code blue", "cardiac arrest", "pulseless", "pea", "vfib", "v-fib",
   "vtach", "v-tach", "rapid response", "rrt", "stat", "immediately",
   "right now", "need to decide now", "crashing", "severe hypotension",
   "shock", "tpa", "t-pa", "alteplase", "stroke code", "activate stroke",
   "massive bleed", "massive hemor", "massive hemorrhage", "intubate now",
   "emergent intubation", "emergent cath", "stemi activation"]

/-- `medium_urgency_terms` from the source. -/
def medium_urgency_terms : List String :=
  ["today", "within the hour", "this hour", "soon", "acutely"]

/-- `high_risk_terms` from the source. -/
def high_risk_terms : List String :=
  ["tpa", "thrombolysis", "thrombolytics", "alteplase",
   "push dose", "push-dose", "bolus pressor", "pressors", "vasopressor",
   "levophed", "norepinephrine", "epinephrine", "dopamine", "dobutamine",
   "amiodarone bolus", "lidocaine bolus", "chemo", "chemotherapy",
   "intubate", "extubate", "ecmo", "lvad", "vent settings", "crrt",
   "dialysis initiation", "emergent surgery"]

/-- `low_risk_terms` from the source. -/
def low_risk_terms : List String :=
  ["explain", "counsel", "board prep", "studying", "education", "for teaching",
   "for teaching purposes", "long-term management", "in general", "overall strategy"]

/-- `protocol_terms` from the source. -/
def protocol_terms : List String :=
  ["hospital protocol", "institutional protocol", "order set", "orderset",
   "nomogram", "policy", "local protocol", "stroke protocol",
   "sepsis bundle", "vent weaning protocol", "insulin drip protocol",
   "heparin drip protocol", "dka protocol"]

/-- `mixed_terms` from the source. -/
def mixed_terms : List String :=
  ["our hospital", "at our institution", "formulary"]

/-- `evidence_terms` from the source. -/
def evidence_terms : List String :=
  ["evidence", "literature", "trial", "trials", "rct", "randomized",
   "meta-analysis", "meta analysis", "systematic review", "cohort study",
   "compare", "comparison", "noninferior", "non-inferior",
   "superior", "mortality benefit", "outcomes of", "hazard ratio",
   "guideline", "guidelines", "class i recommendation", "class ii", "class 1",
   "aha", "acc", "esc", "chest guideline"]

/-- `teaching_terms` from the source. -/
def teaching_terms : List String :=
  ["explain to a patient", "explain to patient", "how to explain",
   "how to counsel", "counseling", "patient-friendly", "plain language",
   "teach an intern", "teach a medical student", "for teaching", "for education",
   "board prep", "for studying", "moc", "simple explanation", "lay terms"]

/-- `mild_edu_terms` from the source. -/
def mild_edu_terms : List String :=
  ["understand the mechanism", "pathophysiology", "why does", "mechanism of"]

/-- The condition of the time-critical branch:
`any(term in t for term in time_critical_terms)`. -/
def timeCriticalHit (t : List Char) : Bool :=
  time_critical_terms.any (fun term => pyIn term t)

/-- The condition of the moderate-urgency branch. -/
def mediumUrgencyHit (t : List Char) : Bool :=
  medium_urgency_terms.any (fun term => pyIn term t)

/-- The `time_urgency` score assigned by the first detector block. -/
def time_urgency_of (t : List Char) : Int :=
  if timeCriticalHit t then 0
  else if mediumUrgencyHit t then 1
  else 2

/-- The rationale string appended by the first detector block. -/
def time_reason (t : List Char) : String :=
  if timeCriticalHit t then
    "Detected **time-critical / crashing context** → urgency set to HIGH."
  else if mediumUrgencyHit t then
    "Detected **some time pressure** → urgency set to MODERATE."
  else
    "No strong urgency language → urgency set to LOW."

/-- The condition of the high-risk branch:
`any(term in t for term in high_risk_terms)`. -/
def highRiskHit (t : List Char) : Bool :=
  high_risk_terms.any (fun term => pyIn term t)

/-- The condition of the low-risk branch. -/
def lowRiskHit (t : List Char) : Bool :=
  low_risk_terms.any (fun term => pyIn term t)

/-- The `risk_level` score assigned by the second detector block. -/
def risk_level_of (t : List Char) : Int :=
  if highRiskHit t then 0
  else if lowRiskHit t then 2
  else 1

/-- The rationale string appended by the second detector block. -/
def risk_reason (t : List Char) : String :=
  if highRiskHit t then
    "Detected **high-stakes intervention language** → risk level set to HIGH."
  else if lowRiskHit t then
    "Detected **educational / low-risk framing** → risk level set to LOW."
  else
    "No extreme risk terms detected → risk level set to MODERATE."

/-- The condition of the protocol branch. -/
def protocolHit (t : List Char) : Bool :=
  protocol_terms.any (fun term => pyIn term t)

/-- The condition of the mixed local-context branch. -/
def mixedHit (t : List Char) : Bool :=
  mixed_terms.any (fun term => pyIn term t)

/-- The `protocol_independence` score assigned by the third detector block. -/
def protocol_independence_of (t : List Char) : Int :=
  if protocolHit t then 0
  else if mixedHit t then 1
  else 2

/-- The rationale string appended by the third detector block. -/
def protocol_reason (t : List Char) : String :=
  if protocolHit t then
    "Detected **hospital-specific / protocol language** → protocol-independence set to LOW."
  else if mixedHit t then
    "Detected **some local context language** → protocol-independence set to MODERATE."
  else
    "No protocol language → protocol-independence set to HIGH."

/-- The condition of the evidence branch:
`any(term in t for term in evidence_terms)`. -/
def evidenceHit (t : List Char) : Bool :=
  evidence_terms.any (fun term => pyIn term t)

/-- `hit_count = sum(term in t for term in evidence_terms)`. -/
def evidenceHitCount (t : List Char) : Nat :=
  evidence_terms.countP (fun term => pyIn term t)

/-- The `evidence_orientation` score assigned by the fourth detector block. -/
def evidence_orientation_of (t : List Char) : Int :=
  if evidenceHit t then
    if 2 ≤ evidenceHitCount t then 2 else 1
  else 0

/-- The rationale string appended by the fourth detector block. -/
def evidence_reason (t : List Char) : String :=
  if evidenceHit t then
    if 2 ≤ evidenceHitCount t then
      "Multiple **evidence/guideline cues** detected → evidence-orientation set to HIGH."
    else
      "Some **evidence/guideline language** → evidence-orientation set to MODERATE."
  else
    "No obvious evidence/guideline cues → evidence-orientation set to LOW."

/-- The condition of the teaching branch. -/
def teachingHit (t : List Char) : Bool :=
  teaching_terms.any (fun term => pyIn term t)

/-- The condition of the mild-educational branch. -/
def mildEduHit (t : List Char) : Bool :=
  mild_edu_terms.any (fun term => pyIn term t)

/-- The `educational_frame` score assigned by the fifth detector block. -/
def educational_frame_of (t : List Char) : Int :=
  if teachingHit t then 2
  else if mildEduHit t then 1
  else 0

/-- The rationale string appended by the fifth detector block. -/
def educational_reason (t : List Char) : String :=
  if teachingHit t then
    "Detected **teaching / patient-education focus** → educational-frame set to HIGH."
  else if mildEduHit t then
    "Detected **mechanism / understanding focus** → educational-frame set to MODERATE."
  else
    "No explicit educational framing → educational-frame set to LOW."

/-- `analyze_dimensions(text)` from the source.  `hard_stop` starts false
and is set to true exactly in the time-critical branch and in the
high-risk branch, so its final value is the disjunction of those two
conditions. -/
def analyze_dimensions (text : String) : Dimensions :=
  let t := pyLower text
  { time_urgency := time_urgency_of t
    risk_level := risk_level_of t
    protocol_independence := protocol_independence_of t
    evidence_orientation := evidence_orientation_of t
    educational_frame := educational_frame_of t
    reasons := [time_reason t, risk_reason t, protocol_reason t,
                evidence_reason t, educational_reason t]
    hard_stop := timeCriticalHit t || highRiskHit t }

/-- The raw weighted sum computed by `compute_ai_usefulness` before
clamping. -/
def rawScore (dim : Dimensions) : Int :=
  (2 - dim.time_urgency) * 2
  + dim.risk_level * 2
  + dim.protocol_independence * 2
  + dim.evidence_orientation * 2
  + dim.educational_frame * 1

/-- `score = max(0, min(10, score))` in the source. -/
def clampedScore (dim : Dimensions) : Int :=
  max 0 (min 10 (rawScore dim))

/-- `compute_ai_usefulness(dim)` from the source: the clamped weighted
score, forced to 3.0 when `hard_stop` is set and the clamped score
exceeds 3. -/
def compute_ai_usefulness (dim : Dimensions) : Int :=
  if dim.hard_stop = true ∧ 3 < clampedScore dim then 3
  else clampedScore dim


/-- `strContains needle hay` decides exactly the contiguous-substring
relation on character lists. -/
theorem strContains_iff (needle hay : List Char) :
    strContains needle hay = true ↔ needle <:+: hay := by
  induction hay with
  | nil => simp [strContains, List.isEmpty_iff, List.infix_nil]
  | cons c rest ih =>
      simp [strContains, ih, List.infix_cons_iff, List.isPrefixOf_iff_prefix]

/-- The evidence branch fires exactly when the hit count is positive. -/
theorem evidenceHit_iff (t : List Char) :
    evidenceHit t = true ↔ 0 < evidenceHitCount t := by
  simp [evidenceHit, evidenceHitCount, List.any_eq_true, List.countP_pos_iff]

/-- C1: for every input text, if the analysis sets `hard_stop` to true,
the final usefulness score returned by the aggregator is at most 3. -/
theorem hard_stop_caps_final_score (text : String)
    (h : (analyze_dimensions text).hard_stop = true) :
    compute_ai_usefulness (analyze_dimensions text) ≤ 3 := by
  unfold compute_ai_usefulness
  split_ifs with hcond
  · exact le_refl 3
  · push_neg at hcond
    exact hcond h

theorem hard_stop_caps_final_score_witness :
    (analyze_dimensions "tpa").hard_stop = true ∧
    compute_ai_usefulness (analyze_dimensions "tpa") ≤ 3 :=
  ⟨by decide, hard_stop_caps_final_score "tpa" (by decide)⟩

/-- C2: for every input string, `hard_stop` is true iff at least one
time-critical term or at least one high-risk term is a substring of the
lowercased input; no other detector contributes to it. -/
theorem hard_stop_iff_critical_or_high_risk (text : String) :
    (analyze_dimensions text).hard_stop = true ↔
      (∃ term ∈ time_critical_terms, term.data <:+: pyLower text) ∨
      (∃ term ∈ high_risk_terms, term.data <:+: pyLower text) := by
  have hproj : (analyze_dimensions text).hard_stop
      = (timeCriticalHit (pyLower text) || highRiskHit (pyLower text)) := rfl
  rw [hproj]
  simp [timeCriticalHit, highRiskHit, pyIn, List.any_eq_true, strContains_iff]

/-- C3: the aggregator computes the fixed weighted sum, clamps it into
[0, 10] with truncation (no proportional rescale: raw ≥ 10 saturates to
exactly 10), returns the clamped value unless `hard_stop` forces 3, and
always lands in [0, 10]. -/
theorem aggregator_formula_and_bounds (dim : Dimensions)
    (h1 : 0 ≤ dim.time_urgency) (h2 : dim.time_urgency ≤ 2)
    (h3 : 0 ≤ dim.risk_level) (h4 : dim.risk_level ≤ 2)
    (h5 : 0 ≤ dim.protocol_independence) (h6 : dim.protocol_independence ≤ 2)
    (h7 : 0 ≤ dim.evidence_orientation) (h8 : dim.evidence_orientation ≤ 2)
    (h9 : 0 ≤ dim.educational_frame) (h10 : dim.educational_frame ≤ 2) :
    rawScore dim = (2 - dim.time_urgency) * 2 + dim.risk_level * 2
        + dim.protocol_independence * 2 + dim.evidence_orientation * 2
        + dim.educational_frame * 1
    ∧ (dim.hard_stop = false ∨ clampedScore dim ≤ 3 →
        compute_ai_usefulness dim = max 0 (min 10 (rawScore dim)))
    ∧ (dim.hard_stop = true ∧ 3 < clampedScore dim →
        compute_ai_usefulness dim = 3)
    ∧ (10 ≤ rawScore dim → rawScore dim ≤ 18 ∧ clampedScore dim = 10)
    ∧ (0 ≤ compute_ai_usefulness dim ∧ compute_ai_usefulness dim ≤ 10) := by
  have hc1 : 0 ≤ clampedScore dim := le_max_left 0 _
  have hc2 : clampedScore dim ≤ 10 := max_le (by norm_num) (min_le_left _ _)
  refine ⟨rfl, ?_, ?_, ?_, ?_⟩
  · intro h
    have hne : ¬ (dim.hard_stop = true ∧ 3 < clampedScore dim) := by
      rcases h with h | h
      · rintro ⟨ha, _⟩
        rw [h] at ha
        exact Bool.false_ne_true ha
      · rintro ⟨_, hb⟩
        omega
    unfold compute_ai_usefulness
    rw [if_neg hne]
    rfl
  · intro h
    unfold compute_ai_usefulness
    rw [if_pos h]
  · intro h
    constructor
    · unfold rawScore
      omega
    · unfold clampedScore
      rw [min_eq_left h]
      norm_num
  · unfold compute_ai_usefulness
    split_ifs with hcond
    · exact ⟨by norm_num, by norm_num⟩
    · exact ⟨hc1, hc2⟩

theorem aggregator_formula_and_bounds_witness :
    compute_ai_usefulness (analyze_dimensions "")
      = max 0 (min 10 (rawScore (analyze_dimensions ""))) :=
  (aggregator_formula_and_bounds (analyze_dimensions "")
    (by decide) (by decide) (by decide) (by decide) (by decide)
    (by decide) (by decide) (by decide) (by decide) (by decide)).2.1
    (Or.inl (by decide))

/-- C4: the empty input yields time_urgency=2, risk_level=1,
protocol_independence=2, evidence_orientation=0, educational_frame=0,
hard_stop=false, and a final score of 6. -/
theorem empty_input_analysis :
    (analyze_dimensions "").time_urgency = 2 ∧
    (analyze_dimensions "").risk_level = 1 ∧
    (analyze_dimensions "").protocol_independence = 2 ∧
    (analyze_dimensions "").evidence_orientation = 0 ∧
    (analyze_dimensions "").educational_frame = 0 ∧
    (analyze_dimensions "").hard_stop = false ∧
    compute_ai_usefulness (analyze_dimensions "") = 6 := by
  decide

/-- C5: evidence_orientation is 2 when at least two evidence terms are
substrings of the lowered input, 1 when exactly one is, and 0 when none
is. -/
theorem evidence_orientation_tiers (text : String) :
    (2 ≤ evidenceHitCount (pyLower text) →
      (analyze_dimensions text).evidence_orientation = 2) ∧
    (evidenceHitCount (pyLower text) = 1 →
      (analyze_dimensions text).evidence_orientation = 1) ∧
    (evidenceHitCount (pyLower text) = 0 →
      (analyze_dimensions text).evidence_orientation = 0) := by
  have hproj : (analyze_dimensions text).evidence_orientation
      = evidence_orientation_of (pyLower text) := rfl
  refine ⟨fun h => ?_, fun h => ?_, fun h => ?_⟩ <;>
    rw [hproj] <;> unfold evidence_orientation_of
  · rw [if_pos ((evidenceHit_iff _).2 (by omega)), if_pos h]
  · rw [if_pos ((evidenceHit_iff _).2 (by omega)), if_neg (by omega)]
  · have hne : ¬ (evidenceHit (pyLower text) = true) := fun hh =>
      absurd ((evidenceHit_iff _).1 hh) (by omega)
    rw [if_neg hne]

theorem evidence_orientation_tiers_witness :
    (analyze_dimensions "evidence").evidence_orientation = 1 :=
  (evidence_orientation_tiers "evidence").2.1 (by decide)

/-- C6: the input "tpa" fires both the time-critical and the high-risk
tiers: time_urgency=0, risk_level=0, hard_stop=true, the other three
dimensions keep their defaults, the raw weighted score is 8, and the
final score is capped to 3. -/
theorem tpa_input_analysis :
    (analyze_dimensions "tpa").time_urgency = 0 ∧
    (analyze_dimensions "tpa").risk_level = 0 ∧
    (analyze_dimensions "tpa").hard_stop = true ∧
    (analyze_dimensions "tpa").protocol_independence = 2 ∧
    (analyze_dimensions "tpa").evidence_orientation = 0 ∧
    (analyze_dimensions "tpa").educational_frame = 0 ∧
    rawScore (analyze_dimensions "tpa") = 8 ∧
    compute_ai_usefulness (analyze_dimensions "tpa") = 3 := by
  decide

/-- C7: for every input the analyzer returns exactly five rationale
strings, one per dimension, in the fixed order time urgency, risk level,
protocol independence, evidence orientation, educational frame. -/
theorem rationale_list_structure (text : String) :
    (analyze_dimensions text).reasons
      = [time_reason (pyLower text), risk_reason (pyLower text),
         protocol_reason (pyLower text), evidence_reason (pyLower text),
         educational_reason (pyLower text)] ∧
    (analyze_dimensions text).reasons.length = 5 :=
  ⟨rfl, rfl⟩

/-- C8: the analyzer is deterministic: two invocations on identical text
yield identical dimension scores, rationale list and hard_stop value. -/
theorem analyzer_deterministic (t1 t2 : String) (h : t1 = t2) :
    analyze_dimensions t1 = analyze_dimensions t2 := by
  rw [h]

theorem analyzer_deterministic_witness :
    analyze_dimensions "stat" = analyze_dimensions "stat" :=
  analyzer_deterministic "stat" "stat" rfl

/-- C9: the single word "guidelines" is matched by the two overlapping
evidence terms "guideline" and "guidelines", so the hit count is 2 and
evidence_orientation reaches the highest tier 2, not 1. -/
theorem guidelines_double_hit :
    (analyze_dimensions "guidelines").evidence_orientation = 2 ∧
    evidenceHitCount (pyLower "guidelines") = 2 ∧
    pyIn "guideline" (pyLower "guidelines") = true ∧
    pyIn "guidelines" (pyLower "guidelines") = true := by
  decide

/-- C10: the hard-stop override only lowers the score: whenever
`hard_stop` is set and the clamped score is at most 3, the aggregator
returns the clamped score unchanged; this is reachable with a final
score of 0, e.g. on the input "intubate policy". -/
theorem hard_stop_never_raises (dim : Dimensions)
    (h1 : dim.hard_stop = true) (h2 : clampedScore dim ≤ 3) :
    compute_ai_usefulness dim = clampedScore dim ∧
    (analyze_dimensions "intubate policy").hard_stop = true ∧
    compute_ai_usefulness (analyze_dimensions "intubate policy") = 0 := by
  refine ⟨?_, by decide, by decide⟩
  have hne : ¬ (dim.hard_stop = true ∧ 3 < clampedScore dim) := by
    rintro ⟨_, hb⟩
    omega
  unfold compute_ai_usefulness
  rw [if_neg hne]

theorem hard_stop_never_raises_witness :
    compute_ai_usefulness (analyze_dimensions "intubate policy")
      = clampedScore (analyze_dimensions "intubate policy") ∧
    (analyze_dimensions "intubate policy").hard_stop = true ∧
    compute_ai_usefulness (analyze_dimensions "intubate policy") = 0 :=
  hard_stop_never_raises (analyze_dimensions "intubate policy")
    (by decide) (by decide)

end Osler
